import Mathlib

/-!
Verification of the core engine of `ssl_expiry_streamlit.py` (an SSL/TLS
certificate expiry checker).

Shallow embedding conventions:
* Timestamps are integers counting seconds (UTC); `now` stands for the value
  of `datetime.utcnow()` at the moment `check_host` computes `days_left`.
* The network environment is abstracted as a function
  `env : String → Nat → ℚ → Except String Int` giving, for each
  (host, port, timeout) triple, either the parsed certificate expiry
  timestamp (`Except.ok`) or the string form of the raised exception
  (`Except.error`).  `fetch_cert_expiry` consults this environment; its
  Python default argument `timeout = 5.0` is the constant `default_timeout`.
* Python `timedelta.days` floors toward negative infinity; it is embedded as
  `Int.fdiv` by the number of seconds in a day.
* `run_checks` consumes futures in completion order; the list argument is the
  hosts in that (arbitrary) completion order, a permutation of the dispatched
  host list.  The progress bar updates `completed / total` are collected as a
  list of exact rationals (the loop emits one update right after appending
  each outcome).  The bar is created at value 0 before the loop; that initial
  rendering is widget setup, not an outcome-driven update.
* The module-level host preparation strips each raw input line and drops the
  blank ones (`prepare_hosts`).
* The chart step fills missing `days_left` with -1 and buckets through
  `pd.cut` with bins [-999, 0, 7, 30, 90, 365, 9999] (left-open,
  right-closed intervals); `value_counts().sort_index()` on the ordered
  categorical yields one count per label in declared order, zeros included
  (`bucket_counts`).
-/

namespace SSLExpiry

/-- Probe environment: maps (host, port, timeout) to the parsed certificate
expiry timestamp or the string form of the exception raised. -/
abbrev Env := String → Nat → ℚ → Except String Int

/-- Classification of one probe, as in the `status` column. -/
inductive Status where
  | OK
  | WARNING
  | ERROR
deriving DecidableEq

/-- The dict returned by `check_host` (one row of the result DataFrame). -/
structure ProbeOutcome where
  host : String
  port : Nat
  expiry : Option Int
  days_left : Option Int
  status : Status
  error : String
deriving DecidableEq

/-- Seconds in a day, the unit of `timedelta.days`. -/
def seconds_per_day : Int := 86400

/-- The default value of the `timeout` parameter of `fetch_cert_expiry`
(5.0 seconds in the source). -/
def default_timeout : ℚ := 5

/-- `fetch_cert_expiry(host, port, timeout)`: connect and return the parsed
`notAfter` timestamp, or raise.  The network is the environment `env`. -/
def fetch_cert_expiry (env : Env) (host : String) (port : Nat)
    (timeout : ℚ) : Except String Int :=
  env host port timeout

/-- `(expiry - datetime.utcnow()).days`: whole days, floored toward negative
infinity as Python `timedelta.days` does. -/
def timedelta_days (diff : Int) : Int :=
  Int.fdiv diff seconds_per_day

/-- `check_host(host, port, warn_days)`.  The Python call
`fetch_cert_expiry(host, port)` passes no timeout, so the default applies;
the embedding writes that default (`default_timeout`) explicitly. -/
def check_host (env : Env) (now : Int) (host : String) (port : Nat)
    (warn_days : Int) : ProbeOutcome :=
  match fetch_cert_expiry env host port default_timeout with
  | Except.ok expiry =>
      let days_left := timedelta_days (expiry - now)
      let status := if days_left > warn_days then Status.OK else Status.WARNING
      { host := host, port := port, expiry := some expiry,
        days_left := some days_left, status := status, error := "" }
  | Except.error e =>
      { host := host, port := port, expiry := none, days_left := none,
        status := Status.ERROR, error := e }

/-- What `run_checks` produces: the appended outcome list (rows of the
DataFrame, in completion order) together with the emitted progress values. -/
@[ext]
structure RunResult where
  outcomes : List ProbeOutcome
  progress : List ℚ
deriving DecidableEq

/-- The `as_completed` loop body: append `fut.result()`, increment
`completed`, emit `completed / total`. -/
def run_loop (env : Env) (now : Int) (port : Nat) (warn_days : Int)
    (total : Nat) : List String → Nat → List ProbeOutcome × List ℚ
  | [], _ => ([], [])
  | h :: rest, completed =>
      let out := check_host env now h port warn_days
      let next := run_loop env now port warn_days total rest (completed + 1)
      (out :: next.1, (((completed : ℚ) + 1) / (total : ℚ)) :: next.2)

/-- `run_checks(hosts, port, warn_days, workers)`: one future per element of
`hosts` (the futures dict is keyed by the Future objects, so duplicates give
distinct futures), consumed in completion order.  `workers` only sizes the
thread pool and does not affect the produced data. -/
def run_checks (env : Env) (now : Int) (hosts : List String) (port : Nat)
    (warn_days : Int) (workers : Nat) : RunResult :=
  let total := hosts.length
  let r := run_loop env now port warn_days total hosts 0
  { outcomes := r.1, progress := r.2 }

/-- Python `str.strip()` with no argument: remove leading and trailing
whitespace (restricted here to the ASCII whitespace characters the host
lines can contain). -/
def py_strip (s : String) : String :=
  String.mk
    (((s.data.dropWhile Char.isWhitespace).reverse.dropWhile
        Char.isWhitespace).reverse)

/-- Module-level host preparation:
`[h.strip() for h in lines if h.strip()]`. -/
def prepare_hosts (lines : List String) : List String :=
  (lines.map (fun h => py_strip h)).filter (fun h => h ≠ "")

/-- The chart bucket labels, in declared order. -/
inductive Bucket where
  | Expired
  | D0_7
  | D8_30
  | D31_90
  | D91_365
  | Over365
deriving DecidableEq

/-- The `labels` list of `pd.cut`, in declared (categorical) order. -/
def bucket_labels : List Bucket :=
  [Bucket.Expired, Bucket.D0_7, Bucket.D8_30, Bucket.D31_90,
   Bucket.D91_365, Bucket.Over365]

/-- `pd.cut(x, bins=[-999, 0, 7, 30, 90, 365, 9999], labels=...)` for one
value: left-open right-closed intervals, `none` (NaN) outside every bin. -/
def days_left_bucket (x : Int) : Option Bucket :=
  if -999 < x ∧ x ≤ 0 then some Bucket.Expired
  else if 0 < x ∧ x ≤ 7 then some Bucket.D0_7
  else if 7 < x ∧ x ≤ 30 then some Bucket.D8_30
  else if 30 < x ∧ x ≤ 90 then some Bucket.D31_90
  else if 90 < x ∧ x ≤ 365 then some Bucket.D91_365
  else if 365 < x ∧ x ≤ 9999 then some Bucket.Over365
  else none

/-- `df["days_left"].fillna(-1)` on one row. -/
def fill_days_left (o : ProbeOutcome) : Int :=
  o.days_left.getD (-1)

/-- Whether a (filled) value falls inside some bin of the `pd.cut` call. -/
def in_bucket_range (x : Int) : Bool :=
  decide (-999 < x ∧ x ≤ 9999)

/-- Number of outcomes landing in bucket `b`. -/
def bucket_count (outcomes : List ProbeOutcome) (b : Bucket) : Nat :=
  (outcomes.filter (fun o => days_left_bucket (fill_days_left o) = some b)).length

/-- `value_counts().sort_index()` on the ordered categorical column: one
count per label, in declared order, zero counts included. -/
def bucket_counts (outcomes : List ProbeOutcome) : List (Bucket × Nat) :=
  bucket_labels.map (fun b => (b, bucket_count outcomes b))

/-- Sum of the histogram counts. -/
def bucket_counts_sum (outcomes : List ProbeOutcome) : Nat :=
  ((bucket_counts outcomes).map Prod.snd).sum

/-- A probe environment in which every connection is refused. -/
def env_refused : Env := fun _ _ _ => Except.error "connection refused"

/-- A probe environment raising an exception whose string form is empty
(Python `str(e)` can be `""`, e.g. for a bare `Exception()`). -/
def env_empty_msg : Env := fun _ _ _ => Except.error ""

/-- A probe environment whose certificate expires 30 days after the epoch. -/
def env_ok30 : Env := fun _ _ _ => Except.ok (30 * 86400)

/-- A probe environment whose certificate expires 10000 days after the
epoch (beyond the last bin edge 9999). -/
def env_far : Env := fun _ _ _ => Except.ok (10000 * 86400)

/-- A probe environment that only succeeds when called with timeout 5. -/
def env_timeout_sensitive : Env :=
  fun _ _ t => if t = 5 then Except.ok (30 * 86400) else Except.error "slow"

/-- A probe environment whose certificate expired half a day before the
epoch (43200 seconds = 12 hours). -/
def env_expired_half : Env := fun _ _ _ => Except.ok (-43200)

theorem run_loop_fst (env : Env) (now : Int) (port : Nat) (warn_days : Int)
    (total : Nat) : ∀ (l : List String) (c : Nat),
    (run_loop env now port warn_days total l c).1 =
      l.map (fun h => check_host env now h port warn_days)
  | [], _ => rfl
  | h :: rest, c => by
      simp [run_loop, run_loop_fst env now port warn_days total rest (c + 1)]

theorem run_loop_snd (env : Env) (now : Int) (port : Nat) (warn_days : Int)
    (total : Nat) : ∀ (l : List String) (c : Nat),
    (run_loop env now port warn_days total l c).2 =
      (List.range l.length).map
        (fun k => (((c + k + 1 : ℕ) : ℚ)) / (total : ℚ))
  | [], _ => rfl
  | h :: rest, c => by
      rw [List.length_cons, List.range_succ_eq_map, List.map_cons, List.map_map]
      simp only [run_loop, run_loop_snd env now port warn_days total rest (c + 1)]
      refine congrArg₂ (· :: ·) (by push_cast; ring) ?_
      refine List.map_congr_left fun k _ => ?_
      have : c + 1 + k + 1 = c + (k + 1) + 1 := by omega
      simp [Function.comp, this]

theorem run_checks_outcomes_eq (env : Env) (now : Int) (hosts : List String)
    (port : Nat) (warn_days : Int) (workers : Nat) :
    (run_checks env now hosts port warn_days workers).outcomes =
      hosts.map (fun h => check_host env now h port warn_days) := by
  simp [run_checks, run_loop_fst]

theorem run_checks_progress_eq (env : Env) (now : Int) (hosts : List String)
    (port : Nat) (warn_days : Int) (workers : Nat) :
    (run_checks env now hosts port warn_days workers).progress =
      (List.range hosts.length).map
        (fun k => (((k + 1 : ℕ) : ℚ)) / (hosts.length : ℚ)) := by
  simp [run_checks, run_loop_snd]

example : (check_host env_ok30 0 "a" 443 15).status = Status.OK := by decide

example : (check_host env_refused 0 "a" 443 15).status = Status.ERROR := by
  decide

example :
    (run_checks env_refused 0 ["a", "b"] 443 15 10).progress =
      [1 / 2, 1] := by
  norm_num [run_checks, run_loop]

/-- C1: for every probe outcome of `check_host` with `days_left` present
(equivalently, `expiry` present), the status is WARNING iff
`days_left ≤ warn_days` (boundary inclusive, negative values included) and
OK iff `days_left > warn_days`. -/
theorem check_host_warning_boundary (env : Env) (now : Int) (host : String)
    (port : Nat) (warn_days d : Int)
    (hd : (check_host env now host port warn_days).days_left = some d) :
    ((check_host env now host port warn_days).status = Status.WARNING ↔
      d ≤ warn_days) ∧
    ((check_host env now host port warn_days).status = Status.OK ↔
      warn_days < d) := by
  rcases h : fetch_cert_expiry env host port default_timeout with e | t
  · simp [check_host, h] at hd
  · simp only [check_host, h] at hd ⊢
    simp only [Option.some.injEq] at hd
    subst hd
    constructor <;> split <;> simp_all

/-- C1 witness: a certificate expiring 30 days from now with threshold 15
is classified OK. -/
theorem check_host_warning_boundary_witness :
    (check_host env_ok30 0 "a" 443 15).status = Status.OK :=
  ((check_host_warning_boundary env_ok30 0 "a" 443 15 30 (by decide)).2).mpr
    (by decide)

/-- C2: a `check_host` outcome has status ERROR iff its `expiry` field is
absent, and when `expiry` is absent `days_left` is absent as well. -/
theorem check_host_error_iff_no_expiry (env : Env) (now : Int) (host : String)
    (port : Nat) (warn_days : Int) :
    ((check_host env now host port warn_days).status = Status.ERROR ↔
      (check_host env now host port warn_days).expiry = none) ∧
    ((check_host env now host port warn_days).expiry = none →
      (check_host env now host port warn_days).days_left = none) := by
  rcases h : fetch_cert_expiry env host port default_timeout with e | t
  · simp [check_host, h]
  · simp only [check_host, h]
    constructor
    · simp only [Iff.comm]
      split <;> simp
    · simp

/-- C2 witness: a refused connection yields an outcome with no `expiry`,
hence no `days_left`. -/
theorem check_host_error_iff_no_expiry_witness :
    (check_host env_refused 0 "a" 443 15).days_left = none :=
  (check_host_error_iff_no_expiry env_refused 0 "a" 443 15).2 (by decide)

/-- C3 counterexample: the futures dict is keyed by the Future objects, so
duplicate hosts are not deduplicated: the input lines "a", "a" give two
outcomes, while there is only one distinct trimmed non-blank host. -/
theorem run_checks_distinct_count_cex :
    ¬ ((run_checks env_refused 0 (prepare_hosts ["a", "a"]) 443 15
          10).outcomes.length
        = (prepare_hosts ["a", "a"]).dedup.length) := by decide

/-- C3 amended: for any completion order (a permutation of the prepared
host list), the number of outcomes equals the number of trimmed, non-blank
input lines, duplicates included. -/
theorem run_checks_outcome_count (env : Env) (now : Int) (lines : List String)
    (port : Nat) (warn_days : Int) (workers : Nat) (completion : List String)
    (hperm : completion.Perm (prepare_hosts lines)) :
    (run_checks env now completion port warn_days workers).outcomes.length
      = (prepare_hosts lines).length := by
  rw [run_checks_outcomes_eq, List.length_map, hperm.length_eq]

/-- C3 witness: three raw lines, one blank, checked in dispatch order, give
two outcomes. -/
theorem run_checks_outcome_count_witness :
    (run_checks env_refused 0 (prepare_hosts [" a ", "", "b"]) 443 15
        10).outcomes.length
      = (prepare_hosts [" a ", "", "b"]).length :=
  run_checks_outcome_count env_refused 0 [" a ", "", "b"] 443 15 10
    (prepare_hosts [" a ", "", "b"]) (List.Perm.refl _)

/-- C4: for a non-empty batch of n hosts, the emitted progress values are
exactly completed/total for completed = 1..n (one update right after each
outcome is appended, so one update per outcome), every value lies in [0,1],
the sequence is non-decreasing, and the last value is exactly 1. -/
theorem run_checks_progress_spec (env : Env) (now : Int) (hosts : List String)
    (port : Nat) (warn_days : Int) (workers : Nat) (hne : hosts ≠ []) :
    (run_checks env now hosts port warn_days workers).progress =
      (List.range hosts.length).map
        (fun k => (((k + 1 : ℕ) : ℚ)) / (hosts.length : ℚ)) ∧
    (∀ q ∈ (run_checks env now hosts port warn_days workers).progress,
      0 ≤ q ∧ q ≤ 1) ∧
    List.Pairwise (· ≤ ·)
      (run_checks env now hosts port warn_days workers).progress ∧
    (run_checks env now hosts port warn_days workers).progress.getLast?
      = some 1 ∧
    (run_checks env now hosts port warn_days workers).progress.length =
      (run_checks env now hosts port warn_days workers).outcomes.length := by
  have hn : 0 < hosts.length := List.length_pos.mpr hne
  have hn0 : (0 : ℚ) < (hosts.length : ℚ) := by exact_mod_cast hn
  rw [run_checks_progress_eq, run_checks_outcomes_eq]
  refine ⟨rfl, ?_, ?_, ?_, by simp⟩
  · intro q hq
    obtain ⟨k, hk, rfl⟩ := List.mem_map.mp hq
    have hk2 : k + 1 ≤ hosts.length := List.mem_range.mp hk
    constructor
    · positivity
    · rw [div_le_one hn0]
      exact_mod_cast hk2
  · refine List.Pairwise.map _ (fun a b hab => ?_) (List.sorted_lt_range _)
    have h1 : a + 1 ≤ b + 1 := by omega
    have h2 : ((a + 1 : ℕ) : ℚ) ≤ ((b + 1 : ℕ) : ℚ) := by exact_mod_cast h1
    exact (div_le_div_iff_of_pos_right hn0).mpr h2
  · obtain ⟨m, hm⟩ : ∃ m, hosts.length = m + 1 :=
      ⟨hosts.length - 1, by omega⟩
    rw [hm, List.range_succ, List.map_append]
    simp only [List.map_cons, List.map_nil]
    rw [List.getLast?_concat]
    have : ((m + 1 : ℕ) : ℚ) ≠ 0 := by exact_mod_cast Nat.succ_ne_zero m
    rw [div_self this]

/-- C4 witness: a two-host batch is non-empty, so its last progress value
is exactly 1. -/
theorem run_checks_progress_spec_witness :
    (run_checks env_refused 0 ["a", "b"] 443 15 10).progress.getLast?
      = some 1 :=
  (run_checks_progress_spec env_refused 0 ["a", "b"] 443 15 10
    (by simp)).2.2.2.1

theorem sum_map_add_nat {α : Type} (l : List α) (f g : α → ℕ) :
    (l.map (fun x => f x + g x)).sum = (l.map f).sum + (l.map g).sum := by
  induction l with
  | nil => simp
  | cons a t ih => simp [ih]; omega

theorem days_left_bucket_isSome_iff (x : Int) :
    (days_left_bucket x).isSome ↔ (-999 < x ∧ x ≤ 9999) := by
  unfold days_left_bucket
  split_ifs <;> simp <;> omega

theorem bucket_indicator_sum (x : Int) :
    (bucket_labels.map
      (fun b => if days_left_bucket x = some b then (1 : ℕ) else 0)).sum
      = if in_bucket_range x then 1 else 0 := by
  rcases hb : days_left_bucket x with _ | b
  · have h := days_left_bucket_isSome_iff x
    rw [hb] at h
    simp only [Option.isSome_none, Bool.false_eq_true, false_iff] at h
    rw [if_neg (by simp [in_bucket_range, h])]
    simp [bucket_labels]
  · have h := days_left_bucket_isSome_iff x
    rw [hb] at h
    simp only [Option.isSome_some, true_iff] at h
    rw [if_pos (by simp [in_bucket_range, h])]
    cases b <;> simp [bucket_labels]

theorem bucket_count_cons (o : ProbeOutcome) (rest : List ProbeOutcome)
    (b : Bucket) :
    bucket_count (o :: rest) b =
      (if days_left_bucket (fill_days_left o) = some b then 1 else 0) +
        bucket_count rest b := by
  simp only [bucket_count, List.filter_cons]
  split <;> simp_all <;> omega

theorem bucket_counts_sum_eq (outcomes : List ProbeOutcome) :
    bucket_counts_sum outcomes =
      (outcomes.filter (fun o => in_bucket_range (fill_days_left o))).length := by
  induction outcomes with
  | nil => rfl
  | cons o rest ih =>
      have hsum : bucket_counts_sum (o :: rest)
          = (bucket_labels.map
              (fun b => if days_left_bucket (fill_days_left o) = some b
                then (1 : ℕ) else 0)).sum
            + bucket_counts_sum rest := by
        simp only [bucket_counts_sum, bucket_counts, List.map_map]
        rw [← sum_map_add_nat]
        refine congrArg List.sum (List.map_congr_left fun b _ => ?_)
        simp [Function.comp, bucket_count_cons]
      rw [hsum, bucket_indicator_sum, List.filter_cons, ih]
      split <;> simp_all <;> omega

/-- C5 counterexample: a single successful probe with a certificate 10000
days out yields one outcome, but the bucket counts sum to 0, because
pd.cut assigns no bin above the last edge 9999. -/
theorem bucket_sum_total_cex :
    ¬ (bucket_counts_sum (run_checks env_far 0 ["a"] 443 15 10).outcomes
        = (run_checks env_far 0 ["a"] 443 15 10).outcomes.length) := by
  decide

/-- C5 amended: the bucket counts sum to the number of outcomes whose
days_left, after the fillna(-1) step, lies inside the bin range
(-999, 9999] — in particular to the total outcome count whenever every
filled value is in range; ERROR rows (absent days_left, filled with the
sentinel -1) land in the Expired bucket; and the histogram lists one count
per label in the fixed declared order, zero counts included. -/
theorem bucket_counts_spec (outcomes : List ProbeOutcome) :
    bucket_counts_sum outcomes =
      (outcomes.filter (fun o => in_bucket_range (fill_days_left o))).length ∧
    (bucket_counts outcomes).map Prod.fst = bucket_labels ∧
    (∀ o : ProbeOutcome, o.days_left = none →
      days_left_bucket (fill_days_left o) = some Bucket.Expired) ∧
    ((∀ o ∈ outcomes, in_bucket_range (fill_days_left o)) →
      bucket_counts_sum outcomes = outcomes.length) := by
  refine ⟨bucket_counts_sum_eq outcomes, ?_, ?_, ?_⟩
  · rfl
  · intro o ho
    simp [fill_days_left, ho, days_left_bucket]
  · intro hall
    rw [bucket_counts_sum_eq,
      congrArg List.length (List.filter_eq_self.mpr hall)]

/-- C5 witness: a batch with one refused connection has one ERROR outcome;
its filled sentinel -1 is in range, so the counts sum to the total. -/
theorem bucket_counts_spec_witness :
    bucket_counts_sum (run_checks env_refused 0 ["a"] 443 15 10).outcomes
      = (run_checks env_refused 0 ["a"] 443 15 10).outcomes.length :=
  (bucket_counts_spec
    ((run_checks env_refused 0 ["a"] 443 15 10).outcomes)).2.2.2 (by decide)

/-- C10: a filled days_left at or below -999 or above 9999 is assigned no
bucket by the pd.cut step, and a batch containing such an outcome has
bucket counts summing to strictly less than its total outcome count. -/
theorem days_left_bucket_out_of_range :
    (∀ x : Int, x ≤ -999 ∨ 9999 < x → days_left_bucket x = none) ∧
    ∀ outcomes : List ProbeOutcome,
      (∃ o ∈ outcomes,
        fill_days_left o ≤ -999 ∨ 9999 < fill_days_left o) →
      bucket_counts_sum outcomes < outcomes.length := by
  constructor
  · intro x hx
    unfold days_left_bucket
    split_ifs <;> first | rfl | omega
  · rintro outs ⟨o, ho, hrange⟩
    rw [bucket_counts_sum_eq]
    refine List.length_filter_lt_length_iff_exists.mpr ⟨o, ho, ?_⟩
    simp only [in_bucket_range, decide_eq_true_eq]
    omega

/-- C10 witness: 10000 days lands in no bucket, and the batch probing a
certificate 10000 days out loses its only outcome from the histogram. -/
theorem days_left_bucket_out_of_range_witness :
    days_left_bucket 10000 = none ∧
    bucket_counts_sum (run_checks env_far 0 ["a"] 443 15 10).outcomes
      < (run_checks env_far 0 ["a"] 443 15 10).outcomes.length :=
  ⟨days_left_bucket_out_of_range.1 10000 (Or.inr (by norm_num)),
   days_left_bucket_out_of_range.2 _ (by decide)⟩

theorem timedelta_days_floor (diff : Int) :
    timedelta_days diff * seconds_per_day ≤ diff ∧
    diff < (timedelta_days diff + 1) * seconds_per_day := by
  unfold timedelta_days seconds_per_day
  rw [Int.fdiv_eq_ediv _ (by norm_num)]
  omega

/-- C6: for a successful probe, days_left is the whole-day difference
between now and expiry, floored toward negative infinity (characterized by
days * 86400 ≤ diff < (days + 1) * 86400); in particular a certificate
expired by less than a full day gives days_left = -1, not 0. -/
theorem check_host_days_left_floor (env : Env) (now : Int) (host : String)
    (port : Nat) (warn_days t : Int)
    (hok : fetch_cert_expiry env host port default_timeout = Except.ok t) :
    (check_host env now host port warn_days).days_left
      = some (timedelta_days (t - now)) ∧
    timedelta_days (t - now) * seconds_per_day ≤ t - now ∧
    t - now < (timedelta_days (t - now) + 1) * seconds_per_day ∧
    (now - seconds_per_day < t → t < now →
      (check_host env now host port warn_days).days_left = some (-1)) := by
  have hfl := timedelta_days_floor (t - now)
  have hd : (check_host env now host port warn_days).days_left
      = some (timedelta_days (t - now)) := by
    simp [check_host, hok]
  refine ⟨hd, hfl.1, hfl.2, fun h1 h2 => ?_⟩
  have hm1 : timedelta_days (t - now) = -1 := by
    unfold seconds_per_day at h1
    unfold timedelta_days seconds_per_day
    rw [Int.fdiv_eq_ediv _ (by norm_num)]
    omega
  rw [hd, hm1]

/-- C6 witness: a certificate expired by exactly half a day yields
days_left = -1. -/
theorem check_host_days_left_floor_witness :
    (check_host env_expired_half 0 "a" 443 15).days_left = some (-1) :=
  (check_host_days_left_floor env_expired_half 0 "a" 443 15 (-43200)
    rfl).2.2.2 (by decide) (by decide)

/-- C7: every dispatched target yields exactly one outcome (one row per
host, in completion order, so no single-host failure aborts the batch),
and any exception during a probe is captured into that host outcome as
status ERROR with the exception string in the error field. -/
theorem run_checks_failure_isolation (env : Env) (now : Int)
    (hosts : List String) (port : Nat) (warn_days : Int) (workers : Nat) :
    (run_checks env now hosts port warn_days workers).outcomes =
      hosts.map (fun h => check_host env now h port warn_days) ∧
    ∀ h e, fetch_cert_expiry env h port default_timeout = Except.error e →
      check_host env now h port warn_days =
        { host := h, port := port, expiry := none, days_left := none,
          status := Status.ERROR, error := e } := by
  refine ⟨run_checks_outcomes_eq env now hosts port warn_days workers,
    fun h e he => ?_⟩
  simp [check_host, he]

/-- C7 witness: a refused connection is captured as a complete ERROR
outcome for that host. -/
theorem run_checks_failure_isolation_witness :
    check_host env_refused 0 "a" 443 15 =
      { host := "a", port := 443, expiry := none, days_left := none,
        status := Status.ERROR, error := "connection refused" } :=
  (run_checks_failure_isolation env_refused 0 ["a"] 443 15 10).2
    "a" "connection refused" rfl

/-- C8 counterexample: check_host copies str(e) verbatim into the error
field, so an exception whose string form is empty yields an outcome with
status ERROR and an empty error string, contradicting the claim that the
error field is non-empty whenever status is ERROR. -/
theorem check_host_error_nonempty_cex :
    (check_host env_empty_msg 0 "a" 443 15).status = Status.ERROR ∧
    (check_host env_empty_msg 0 "a" 443 15).error = "" :=
  ⟨rfl, rfl⟩

/-- C8 amended: the error field is empty whenever status is OK or WARNING,
and when status is ERROR it equals the string form of the caught
exception — hence it is non-empty exactly when that string form is. -/
theorem check_host_error_field (env : Env) (now : Int) (host : String)
    (port : Nat) (warn_days : Int) :
    ((check_host env now host port warn_days).status ≠ Status.ERROR →
      (check_host env now host port warn_days).error = "") ∧
    ((check_host env now host port warn_days).status = Status.ERROR →
      ∃ e, fetch_cert_expiry env host port default_timeout = Except.error e ∧
        (check_host env now host port warn_days).error = e) := by
  rcases h : fetch_cert_expiry env host port default_timeout with e | t
  · constructor
    · intro hne
      exact absurd (by simp [check_host, h]) hne
    · intro _
      exact ⟨e, rfl, by simp [check_host, h]⟩
  · constructor
    · intro _
      simp [check_host, h]
    · intro hst
      exfalso
      simp only [check_host, h] at hst
      split at hst <;> simp_all

/-- C8 witness: a successful probe leaves the error field empty. -/
theorem check_host_error_field_witness :
    (check_host env_ok30 0 "a" 443 15).error = "" :=
  (check_host_error_field env_ok30 0 "a" 443 15).1 (by decide)

/-- C9: the probe timeout is fixed at 5 seconds: fetch_cert_expiry has the
default default_timeout = 5, check_host invokes it with that default, and
run_checks (whose parameters are hosts, port, warn_days, workers only)
depends on the network environment solely through its behavior at
timeout 5 — environments agreeing at timeout 5 give identical results. -/
theorem run_checks_fixed_timeout (env env2 : Env) (now : Int)
    (hosts : List String) (port : Nat) (warn_days : Int) (workers : Nat)
    (hagree : ∀ h p, env h p default_timeout = env2 h p default_timeout) :
    default_timeout = 5 ∧
    run_checks env now hosts port warn_days workers =
      run_checks env2 now hosts port warn_days workers := by
  have hch : ∀ h, check_host env now h port warn_days
      = check_host env2 now h port warn_days := by
    intro h
    unfold check_host fetch_cert_expiry
    rw [hagree h port]
  refine ⟨rfl, RunResult.ext ?_ ?_⟩
  · rw [run_checks_outcomes_eq, run_checks_outcomes_eq]
    exact List.map_congr_left fun h _ => hch h
  · rw [run_checks_progress_eq, run_checks_progress_eq]

/-- C9 witness: an environment that only answers at timeout 5 and one that
always answers, agreeing at timeout 5, give the same batch result. -/
theorem run_checks_fixed_timeout_witness :
    run_checks env_timeout_sensitive 0 ["a"] 443 15 10 =
      run_checks env_ok30 0 ["a"] 443 15 10 :=
  (run_checks_fixed_timeout env_timeout_sensitive env_ok30 0 ["a"] 443 15 10
    (fun _ _ => by
      simp [env_timeout_sensitive, env_ok30, default_timeout])).2

end SSLExpiry
